/-
Verification of the Pokemon-Manager-API query-translation and validation
layer (pokemon.service.ts, app.controller.ts) against its specification.

The TypeScript source is embedded shallowly:
  * JavaScript runtime values that the code inspects are modelled by
    `JSValue`; JavaScript numbers by `JSNumber` (an exact rational plus
    NaN and the two infinities; float rounding is not modelled, which is
    exact on every integral value the service manipulates).
  * The built-in `Number(...)` coercion is modelled by `jsToNumber`,
    including the string grammar (whitespace trimming, empty string,
    sign, Infinity, hex/octal/binary prefixes, decimal with fraction and
    exponent).
  * `undefined`-able query parameters become `Option String`; a thrown
    `BadRequestException` becomes the `Except`/error side of a result.
  * The Prisma storage collaborator is modelled as a pure state
    transition over a `List Pokemon` database.
-/
import Mathlib

/-- A JavaScript number: NaN, the infinities, or a finite value
(modelled as an exact rational). -/
inductive JSNumber where
  | nan : JSNumber
  | posInf : JSNumber
  | negInf : JSNumber
  | num : ℚ → JSNumber
deriving DecidableEq

/-- A JavaScript runtime value, as far as the service inspects values:
`undefined`, `null`, booleans, numbers and strings. -/
inductive JSValue where
  | undef : JSValue
  | null : JSValue
  | boolean : Bool → JSValue
  | number : JSNumber → JSValue
  | str : String → JSValue
deriving DecidableEq

namespace JSNumber

/-- JavaScript `Number.isInteger`: true exactly on finite integral values. -/
def isInteger : JSNumber → Bool
  | num q => q.den = 1
  | _ => false

/-- JavaScript `<` on numbers: any comparison with NaN is false. -/
def lt : JSNumber → JSNumber → Bool
  | nan, _ => false
  | _, nan => false
  | negInf, negInf => false
  | negInf, _ => true
  | _, negInf => false
  | posInf, _ => false
  | num _, posInf => true
  | num a, num b => a < b

/-- JavaScript `>=` on numbers: any comparison with NaN is false. -/
def ge (a b : JSNumber) : Bool :=
  match a, b with
  | nan, _ => false
  | _, nan => false
  | posInf, _ => true
  | _, posInf => false
  | num _, negInf => true
  | negInf, negInf => true
  | negInf, num _ => false
  | num a, num b => b ≤ a

/-- JavaScript unary minus on numbers. -/
def neg : JSNumber → JSNumber
  | nan => nan
  | posInf => negInf
  | negInf => posInf
  | num q => num (-q)

end JSNumber

/-- JavaScript whitespace characters stripped by `Number(string)`. -/
def isJsSpace (c : Char) : Bool :=
  c = ' ' ∨ c = '\t' ∨ c = '\n' ∨ c = '\r' ∨ c = '\x0b' ∨ c = '\x0c'

/-- Value of one digit character in the given base, if it is one. -/
def digitValue (base : Nat) (c : Char) : Option Nat :=
  let v : Option Nat :=
    if '0' ≤ c ∧ c ≤ '9' then some (c.toNat - '0'.toNat)
    else if 'a' ≤ c ∧ c ≤ 'f' then some (c.toNat - 'a'.toNat + 10)
    else if 'A' ≤ c ∧ c ≤ 'F' then some (c.toNat - 'A'.toNat + 10)
    else none
  match v with
  | some n => if n < base then some n else none
  | none => none

/-- Value of a non-empty digit string in the given base. -/
def digitsValue (base : Nat) (cs : List Char) : Option Nat :=
  if cs = [] then none
  else cs.foldlM (fun acc c => (digitValue base c).map (fun n => acc * base + n)) 0

/-- The natural number denoted by a (checked) decimal digit string. -/
def natOfDigits (cs : List Char) : Nat :=
  cs.foldl (fun a c => a * 10 + (c.toNat - '0'.toNat)) 0

/-- The exact rational `(ip.frac) * 10 ^ e` of a decimal literal, built
with `mkRat` so that it reduces by computation. -/
def decToRat (ip frac : List Char) (e : Int) : ℚ :=
  let m : Nat := natOfDigits (ip ++ frac)
  if 0 ≤ e then mkRat (m * 10 ^ e.toNat) (10 ^ frac.length)
  else mkRat m (10 ^ frac.length * 10 ^ (-e).toNat)

/-- Signed decimal integer (the exponent part of a numeric literal). -/
def parseSignedInt (cs : List Char) : Option Int :=
  match cs with
  | '+' :: rest => (digitsValue 10 rest).map Int.ofNat
  | '-' :: rest => (digitsValue 10 rest).map (fun n => -(n : Int))
  | _ => (digitsValue 10 cs).map Int.ofNat

/-- Unsigned decimal literal: digits, optional fraction, optional exponent. -/
def parseDecimal (cs : List Char) : Option ℚ :=
  let mantExp := cs.span (fun c => decide (c ≠ 'e' ∧ c ≠ 'E'))
  let mant := mantExp.1
  let expPart : Option Int :=
    match mantExp.2 with
    | [] => some 0
    | _ :: after => parseSignedInt after
  match expPart with
  | none => none
  | some e =>
    let ipFrac := mant.span (fun c => decide (c ≠ '.'))
    let ip := ipFrac.1
    let frac : List Char :=
      match ipFrac.2 with
      | [] => []
      | _ :: f => f
    if ip = [] ∧ frac = [] then none
    else if (ip ++ frac).all (fun c => (digitValue 10 c).isSome) then
      some (decToRat ip frac e)
    else none

/-- Unsigned part of `Number(string)`: `Infinity` or a decimal literal. -/
def parseUnsigned (cs : List Char) : JSNumber :=
  if cs = "Infinity".toList then JSNumber.posInf
  else
    match parseDecimal cs with
    | some q => JSNumber.num q
    | none => JSNumber.nan

/-- Sign handling of `Number(string)` (the radix forms take no sign). -/
def parseSigned (cs : List Char) : JSNumber :=
  match cs with
  | '+' :: rest => parseUnsigned rest
  | '-' :: rest => (parseUnsigned rest).neg
  | _ => parseUnsigned cs

/-- Hex / octal / binary literal forms accepted by `Number(string)`. -/
def parseRadix (cs : List Char) : Option JSNumber :=
  match cs with
  | '0' :: c :: ds =>
    if c = 'x' ∨ c = 'X' then (digitsValue 16 ds).map (fun n => JSNumber.num (mkRat n 1))
    else if c = 'o' ∨ c = 'O' then (digitsValue 8 ds).map (fun n => JSNumber.num (mkRat n 1))
    else if c = 'b' ∨ c = 'B' then (digitsValue 2 ds).map (fun n => JSNumber.num (mkRat n 1))
    else none
  | _ => none

/-- JavaScript `Number(string)`. -/
def jsStringToNumber (s : String) : JSNumber :=
  let cs := ((s.toList.dropWhile isJsSpace).reverse.dropWhile isJsSpace).reverse
  if cs = [] then JSNumber.num 0
  else
    match parseRadix cs with
    | some n => n
    | none => parseSigned cs

/-- JavaScript `Number(value)` on the runtime values the service meets. -/
def jsToNumber : JSValue → JSNumber
  | JSValue.undef => JSNumber.nan
  | JSValue.null => JSNumber.num 0
  | JSValue.boolean b => JSNumber.num (if b then 1 else 0)
  | JSValue.number n => n
  | JSValue.str s => jsStringToNumber s

/-- JavaScript truthiness (`!v` is the negation of this). -/
def jsTruthy : JSValue → Bool
  | JSValue.undef => false
  | JSValue.null => false
  | JSValue.boolean b => b
  | JSValue.number JSNumber.nan => false
  | JSValue.number (JSNumber.num q) => q ≠ 0
  | JSValue.number _ => true
  | JSValue.str s => s ≠ ""

/-- An optional (possibly `undefined`) string argument as a `JSValue`. -/
def jsOfOptStr : Option String → JSValue
  | none => JSValue.undef
  | some s => JSValue.str s

/-- JavaScript `String(value)` for an optional string argument
(`String(undefined)` is the text `undefined`). -/
def jsStringOfOptStr : Option String → String
  | none => "undefined"
  | some s => s

example : jsStringToNumber "" = JSNumber.num 0 := by decide
example : jsStringToNumber "abc" = JSNumber.nan := by decide
example : jsStringToNumber "5.5" = JSNumber.num (mkRat 11 2) := by decide
example : jsStringToNumber "2.5" = JSNumber.num (mkRat 5 2) := by decide
example : jsStringToNumber "42" = JSNumber.num 42 := by decide
example : jsStringToNumber "-7" = JSNumber.num (-7) := by decide
example : jsStringToNumber " 10 " = JSNumber.num 10 := by decide
example : jsStringToNumber "1e2" = JSNumber.num 100 := by decide
example : jsStringToNumber "0x10" = JSNumber.num 16 := by decide
example : jsStringToNumber "Infinity" = JSNumber.posInf := by decide
example : jsStringToNumber "-Infinity" = JSNumber.negInf := by decide
example : jsStringToNumber ".5" = JSNumber.num (mkRat 1 2) := by decide
example : jsStringToNumber "5." = JSNumber.num 5 := by decide
example : jsStringToNumber "1e" = JSNumber.nan := by decide
example : jsStringToNumber "0x" = JSNumber.nan := by decide

/-! ### Data model -/

/-- A persisted Pokemon record (table `Pokemon`): integer id, name,
integer height and weight, image URL text. -/
structure Pokemon where
  id : Int
  name : String
  height : Int
  weight : Int
  image : String
deriving DecidableEq

/-- The raw query-string parameters of `GET /pokemon` (`PokemonQuery` in
the source); an absent parameter is `none`. -/
structure PokemonQuery where
  orderBy : Option String
  orderDir : Option String
  name : Option String
  heightGte : Option String
  heightLeq : Option String
  weightGte : Option String
  weightLeq : Option String
  page : Option String
  pageSize : Option String
deriving DecidableEq

/-- A query with every parameter absent. -/
def emptyQuery : PokemonQuery := ⟨none, none, none, none, none, none, none, none, none⟩

/-- A query carrying only sort parameters. -/
def orderQuery (ob od : Option String) : PokemonQuery :=
  ⟨ob, od, none, none, none, none, none, none, none⟩

/-- A query carrying only range-bound parameters. -/
def boundsQuery (hg hl wg wl : Option String) : PokemonQuery :=
  ⟨none, none, none, hg, hl, wg, wl, none, none⟩

/-- A query carrying only pagination parameters. -/
def pageQuery (page pageSize : Option String) : PokemonQuery :=
  ⟨none, none, none, none, none, none, none, page, pageSize⟩

/-- Prisma sort direction (`Prisma.SortOrder`). -/
inductive SortOrder where
  | asc : SortOrder
  | desc : SortOrder
deriving DecidableEq

/-- The column named by a one-field Prisma `orderBy` object. -/
inductive OrderField where
  | name : OrderField
  | height : OrderField
  | weight : OrderField
deriving DecidableEq

/-- A structured sort: a single-column Prisma `orderBy` object. -/
structure OrderBySpec where
  field : OrderField
  dir : SortOrder
deriving DecidableEq

/-- An inclusive integer range filter (`gte` / `lte`), each side optional. -/
structure NumFilter where
  gte : Option Int
  lte : Option Int
deriving DecidableEq

/-- The structured Prisma where-input produced by the service
(substring on name, ranges on height and weight). -/
structure PokemonWhere where
  nameContains : Option String
  height : NumFilter
  weight : NumFilter
deriving DecidableEq

/-- The structured `findMany` arguments (`PokemonParams` in the source;
the `where` field is called `whereInput` since `where` is reserved). -/
structure PokemonParams where
  whereInput : PokemonWhere
  orderBy : Option OrderBySpec
  skip : Int
  take : Int
deriving DecidableEq

/-- A create/update body as received at runtime: each field is an
arbitrary JavaScript value. -/
structure PokemonData where
  name : JSValue
  height : JSValue
  weight : JSValue
  image : JSValue
deriving DecidableEq

/-- The normalized create input (`Prisma.PokemonCreateInput`) produced
by `resolveData`. -/
structure PokemonCreateInput where
  name : String
  height : JSNumber
  weight : JSNumber
  image : String
deriving DecidableEq

/-- JavaScript `String(number)`. Exact on NaN, the infinities and
integral values (the only numbers the validated flow converts back to
text); a non-integral value is printed from its reduced fraction. -/
def jsNumberToString : JSNumber → String
  | JSNumber.nan => "NaN"
  | JSNumber.posInf => "Infinity"
  | JSNumber.negInf => "-Infinity"
  | JSNumber.num q =>
    if q.den = 1 then toString q.num else toString q.num ++ "/" ++ toString q.den

/-- JavaScript `String(value)`. -/
def jsToString : JSValue → String
  | JSValue.undef => "undefined"
  | JSValue.null => "null"
  | JSValue.boolean b => if b then "true" else "false"
  | JSValue.number n => jsNumberToString n
  | JSValue.str s => s

/-! ### Storage collaborator (Prisma client model)

The database client is modelled as pure state transitions over a
`List Pokemon`; a `none` result is a storage failure (a value that does
not fit the integer columns, or a missing row on update/delete). -/

namespace Prisma

/-- Model of `prisma.pokemon.findUnique({ where: { id } })`. -/
def findUnique (db : List Pokemon) (id : JSNumber) : Option Pokemon :=
  match id with
  | JSNumber.num q => if q.den = 1 then db.find? (fun p => p.id == q.num) else none
  | _ => none

/-- Model of `prisma.pokemon.create({ data })`: assigns the next free id
and appends the record. -/
def create (db : List Pokemon) (input : PokemonCreateInput) :
    Option (List Pokemon × Pokemon) :=
  match input.height, input.weight with
  | JSNumber.num h, JSNumber.num w =>
    if h.den = 1 && w.den = 1 then
      let newId := (db.map Pokemon.id).foldl max 0 + 1
      let p : Pokemon := ⟨newId, input.name, h.num, w.num, input.image⟩
      some (db ++ [p], p)
    else none
  | _, _ => none

/-- Model of `prisma.pokemon.update({ where: { id }, data })`. -/
def update (db : List Pokemon) (id : JSNumber) (input : PokemonCreateInput) :
    Option (List Pokemon × Pokemon) :=
  match findUnique db id, id, input.height, input.weight with
  | some _, JSNumber.num i, JSNumber.num h, JSNumber.num w =>
    if h.den = 1 && w.den = 1 then
      let p : Pokemon := ⟨i.num, input.name, h.num, w.num, input.image⟩
      some (db.map (fun r => if r.id = i.num then p else r), p)
    else none
  | _, _, _, _ => none

/-- Model of `prisma.pokemon.delete({ where: { id } })`. -/
def delete (db : List Pokemon) (id : JSNumber) : Option (List Pokemon × Pokemon) :=
  match findUnique db id, id with
  | some p, JSNumber.num i => some (db.filter (fun r => !(r.id == i.num)), p)
  | _, _ => none

/-- Whether a value passes one inclusive numeric range filter. -/
def NumFilter.sat (f : NumFilter) (v : Int) : Bool :=
  (match f.gte with | none => true | some b => decide (b ≤ v)) &&
  (match f.lte with | none => true | some b => decide (v ≤ b))

/-- Whether `pat` occurs as a contiguous segment of `l` (the storage
model of the `contains` string filter). -/
def containsSegment (pat : List Char) : List Char → Bool
  | [] => pat.isEmpty
  | c :: tl => pat.isPrefixOf (c :: tl) || containsSegment pat tl

/-- Whether a record matches the structured where-input. -/
def matchesWhere (w : PokemonWhere) (p : Pokemon) : Bool :=
  (match w.nameContains with
   | none => true
   | some s => containsSegment s.toList p.name.toList) &&
  NumFilter.sat w.height p.height && NumFilter.sat w.weight p.weight

/-- The sort key order of a single-column `orderBy`. -/
def keyLe (f : OrderField) (a b : Pokemon) : Bool :=
  match f with
  | OrderField.name => decide (a.name ≤ b.name)
  | OrderField.height => decide (a.height ≤ b.height)
  | OrderField.weight => decide (a.weight ≤ b.weight)

/-- Sorting step of `findMany` (no `orderBy` leaves the list as stored). -/
def applyOrderBy (o : Option OrderBySpec) (l : List Pokemon) : List Pokemon :=
  match o with
  | none => l
  | some ⟨f, SortOrder.asc⟩ => l.mergeSort (keyLe f)
  | some ⟨f, SortOrder.desc⟩ => l.mergeSort (fun a b => keyLe f b a)

/-- Model of `prisma.pokemon.findMany({ where, orderBy, skip, take })`. -/
def findMany (db : List Pokemon) (params : PokemonParams) : List Pokemon :=
  ((applyOrderBy params.orderBy (db.filter (matchesWhere params.whereInput))).drop
      params.skip.toNat).take params.take.toNat

end Prisma

/-! ### Record service (`PokemonService`) -/

namespace PokemonService

/-- `resolveNumber`: `Number(x)` when that is an integer, else
`undefined`. -/
def resolveNumber (number : Option String) : Option Int :=
  match jsToNumber (jsOfOptStr number) with
  | JSNumber.num q => if q.den = 1 then some q.num else none
  | _ => none

/-- `parseOrderDir`: `desc` exactly when `String(orderDir)` is the text
`desc`, otherwise `asc`. -/
def parseOrderDir (orderDir : Option String) : SortOrder :=
  if jsStringOfOptStr orderDir = "desc" then SortOrder.desc else SortOrder.asc

/-- `resolveOrderBy`. The source returns the object `\x7b name: dir \x7d`
in all three recognized cases, `height` and `weight` included. -/
def resolveOrderBy (pokemonQuery : PokemonQuery) : Option OrderBySpec :=
  let orderDirValue := parseOrderDir pokemonQuery.orderDir
  if pokemonQuery.orderBy = some "name" then some ⟨OrderField.name, orderDirValue⟩
  else if pokemonQuery.orderBy = some "height" then some ⟨OrderField.name, orderDirValue⟩
  else if pokemonQuery.orderBy = some "weight" then some ⟨OrderField.name, orderDirValue⟩
  else none

/-- `resolvePageSize`: sizes 10/20/50 by exact string match, default 10
when absent, anything else throws `BadRequestException`. -/
def resolvePageSize (pageSize : Option String) : Except String Int :=
  if pageSize = none ∨ pageSize = some "10" then Except.ok 10
  else if pageSize = some "20" then Except.ok 20
  else if pageSize = some "50" then Except.ok 50
  else Except.error "Invalid page size. Valid sizes: 10, 20, 50"

/-- `resolvePage`: a skip/take pair from page and page size; the page
falls back to 1 when the parsed page is `undefined`, `0` (both falsy) or
below 1. -/
def resolvePage (pokemonQuery : PokemonQuery) : Except String (Int × Int) :=
  (resolvePageSize pokemonQuery.pageSize).map (fun validPageSize =>
    let resolvedPage := resolveNumber pokemonQuery.page
    let validPage : Int :=
      match resolvedPage with
      | none => 1
      | some p => if p = 0 || p < 1 then 1 else p
    (validPageSize * (validPage - 1), validPageSize))

/-- `resolveWhere`: substring filter on name and the four lenient
integer bounds. -/
def resolveWhere (pokemonQuery : PokemonQuery) : PokemonWhere :=
  ⟨pokemonQuery.name,
    ⟨resolveNumber pokemonQuery.heightGte, resolveNumber pokemonQuery.heightLeq⟩,
    ⟨resolveNumber pokemonQuery.weightGte, resolveNumber pokemonQuery.weightLeq⟩⟩

/-- `constructParams`: where, orderBy and the skip/take pair. -/
def constructParams (pokemonQuery : PokemonQuery) : Except String PokemonParams :=
  (resolvePage pokemonQuery).map (fun st =>
    ⟨resolveWhere pokemonQuery, resolveOrderBy pokemonQuery, st.1, st.2⟩)

/-- The `errors` array built by `validateData`: one message pushed per
invalid field, in source order name, height, weight, image. -/
def validateDataErrors (data : PokemonData) : List String :=
  let parsedHeight := jsToNumber data.height
  let parsedWeight := jsToNumber data.weight
  (if !jsTruthy data.name then ["Invalid name"] else []) ++
  (if !parsedHeight.isInteger || parsedHeight.lt (JSNumber.num 0) then
     ["Invalid height"] else []) ++
  (if !parsedWeight.isInteger || parsedWeight.lt (JSNumber.num 0) then
     ["Invalid weight"] else []) ++
  (if !jsTruthy data.image then ["Invalid image url"] else [])

/-- `validateData`: the collected message list when non-empty, else
`null`. -/
def validateData (data : PokemonData) : Option (List String) :=
  let errors := validateDataErrors data
  if errors.length > 0 then some errors else none

/-- `resolveData`: normalizes the payload with `String(...)` and
`Number(...)`. -/
def resolveData (data : PokemonData) : PokemonCreateInput :=
  ⟨jsToString data.name, jsToNumber data.height, jsToNumber data.weight, jsToString data.image⟩

/-- `getPokemon` (private): find-by-id against storage. -/
def getPokemon (db : List Pokemon) (id : JSNumber) : Option Pokemon :=
  Prisma.findUnique db id

/-- `validateId`: `null` (no error) only for a value that satisfies
`Number.isInteger(id) && id >= 0` and references an existing record. -/
def validateId (db : List Pokemon) (id : JSNumber) : Option String :=
  if id.isInteger && id.ge (JSNumber.num 0) then
    if (getPokemon db id).isSome then none else some "Invalid id"
  else some "Invalid id"

/-- `getPokemons`: issues the query and echoes `skip / take + 1` as the
page (exact division; `take` is always one of 10/20/50 here). -/
def getPokemons (db : List Pokemon) (params : PokemonParams) : List Pokemon × ℚ :=
  (Prisma.findMany db params, mkRat params.skip 1 / mkRat params.take 1 + 1)

/-- `createPokemon`: delegates to the storage client. -/
def createPokemon (db : List Pokemon) (data : PokemonCreateInput) :
    Option (List Pokemon × Pokemon) :=
  Prisma.create db data

/-- `updatePokemon`: delegates to the storage client. -/
def updatePokemon (db : List Pokemon) (id : JSNumber) (data : PokemonCreateInput) :
    Option (List Pokemon × Pokemon) :=
  Prisma.update db id data

/-- `deletePokemon`: delegates to the storage client. -/
def deletePokemon (db : List Pokemon) (id : JSNumber) :
    Option (List Pokemon × Pokemon) :=
  Prisma.delete db id

end PokemonService

/-! ### HTTP controller (`AppController`)

Each handler is a function of the stored database; mutating handlers
return the resulting database next to the HTTP response, so a response
with an unchanged database is exactly a request with no storage
mutation. -/

/-- Client-error payloads thrown as `BadRequestException`, plus a
propagated storage failure. -/
inductive APIError where
  | badRequest : List String → APIError
  | badRequestMsg : String → APIError
  | serverError : APIError
deriving DecidableEq

namespace AppController

/-- `GET /pokemon`: construct the structured params (a bad page size
throws before any query) and run the list query. -/
def getPokemons (db : List Pokemon) (pokemonQuery : PokemonQuery) :
    Except APIError (List Pokemon × ℚ) :=
  match PokemonService.constructParams pokemonQuery with
  | Except.error msg => Except.error (APIError.badRequestMsg msg)
  | Except.ok params => Except.ok (PokemonService.getPokemons db params)

/-- `POST /pokemon`: validate the body, then resolve and create. -/
def createPokemon (db : List Pokemon) (pokemonData : PokemonData) :
    List Pokemon × Except APIError Pokemon :=
  match PokemonService.validateData pokemonData with
  | some validationResult => (db, Except.error (APIError.badRequest validationResult))
  | none =>
    match PokemonService.createPokemon db (PokemonService.resolveData pokemonData) with
    | some (db2, p) => (db2, Except.ok p)
    | none => (db, Except.error APIError.serverError)

/-- `PUT /pokemon/:id`: validate the body, then the id `Number(id)`,
then resolve and update. -/
def publishPokemon (db : List Pokemon) (id : String) (pokemonData : PokemonData) :
    List Pokemon × Except APIError Pokemon :=
  match PokemonService.validateData pokemonData with
  | some validationResult => (db, Except.error (APIError.badRequest validationResult))
  | none =>
    match PokemonService.validateId db (jsStringToNumber id) with
    | some e => (db, Except.error (APIError.badRequestMsg e))
    | none =>
      match PokemonService.updatePokemon db (jsStringToNumber id)
          (PokemonService.resolveData pokemonData) with
      | some (db2, p) => (db2, Except.ok p)
      | none => (db, Except.error APIError.serverError)

/-- `DELETE /pokemon/:id`: validate the id `Number(id)`, then delete. -/
def deletePokemon (db : List Pokemon) (id : String) :
    List Pokemon × Except APIError Pokemon :=
  match PokemonService.validateId db (jsStringToNumber id) with
  | some e => (db, Except.error (APIError.badRequestMsg e))
  | none =>
    match PokemonService.deletePokemon db (jsStringToNumber id) with
    | some (db2, p) => (db2, Except.ok p)
    | none => (db, Except.error APIError.serverError)

end AppController

/-! ### Spec-side notions and supporting lemmas -/

/-- Spec-side notion (boolean form): a JavaScript number that is a
non-negative integer. -/
def isNonNegIntB (n : JSNumber) : Bool :=
  match n with
  | JSNumber.num q => q.den == 1 && decide (0 ≤ q.num)
  | _ => false

/-- Spec-side list of validation messages: one field-specific message
for each invalid field, in order name, height, weight, image. -/
def specFieldErrors (name image : Option String) (height weight : JSValue) : List String :=
  (if name = none ∨ name = some "" then ["Invalid name"] else []) ++
  (if isNonNegIntB (jsToNumber height) then [] else ["Invalid height"]) ++
  (if isNonNegIntB (jsToNumber weight) then [] else ["Invalid weight"]) ++
  (if image = none ∨ image = some "" then ["Invalid image url"] else [])

theorem isNonNegIntB_iff (n : JSNumber) :
    isNonNegIntB n = true ↔ ∃ k : ℕ, n = JSNumber.num (k : ℚ) := by
  cases n with
  | num q =>
    simp only [isNonNegIntB, Bool.and_eq_true, beq_iff_eq, decide_eq_true_eq,
      JSNumber.num.injEq]
    constructor
    · rintro ⟨hden, hnum⟩
      refine ⟨q.num.toNat, ?_⟩
      have hq : (q.num : ℚ) = q := Rat.coe_int_num_of_den_eq_one hden
      rw [← hq]
      exact_mod_cast (congrArg (fun z : ℤ => (z : ℚ)) (Int.toNat_of_nonneg hnum)).symm
    · rintro ⟨k, rfl⟩
      exact ⟨Rat.den_natCast k, by simp⟩
  | nan => simp [isNonNegIntB]
  | posInf => simp [isNonNegIntB]
  | negInf => simp [isNonNegIntB]

theorem codeNumCond (n : JSNumber) :
    (!n.isInteger || n.lt (JSNumber.num 0)) = !isNonNegIntB n := by
  cases n with
  | num q =>
    simp only [JSNumber.isInteger, JSNumber.lt, isNonNegIntB, Bool.not_and]
    by_cases hd : q.den = 1
    · by_cases hq : q < 0
      · have hn : ¬(0 ≤ q.num) := by rw [Rat.num_nonneg]; exact not_le.mpr hq
        simp [hd, hq, hn]
      · have hn : 0 ≤ q.num := by rw [Rat.num_nonneg]; exact not_lt.mp hq
        simp [hd, hq, hn]
    · simp [hd]
  | nan => rfl
  | posInf => rfl
  | negInf => rfl

theorem blockTruthy (o : Option String) (msg : String) :
    (if !jsTruthy (jsOfOptStr o) then [msg] else []) =
      (if o = none ∨ o = some "" then [msg] else []) := by
  cases o with
  | none => simp [jsOfOptStr, jsTruthy]
  | some s => by_cases h : s = "" <;> simp [jsOfOptStr, jsTruthy, h]

theorem blockNum (v : JSValue) (msg : String) :
    (if !(jsToNumber v).isInteger || (jsToNumber v).lt (JSNumber.num 0) then [msg] else []) =
      (if isNonNegIntB (jsToNumber v) then [] else [msg]) := by
  rw [codeNumCond]
  cases h : isNonNegIntB (jsToNumber v) <;> simp

theorem validateDataErrors_eq_spec (name image : Option String) (height weight : JSValue) :
    PokemonService.validateDataErrors ⟨jsOfOptStr name, height, weight, jsOfOptStr image⟩ =
      specFieldErrors name image height weight := by
  unfold PokemonService.validateDataErrors specFieldErrors
  dsimp only
  rw [blockTruthy, blockNum, blockNum, blockTruthy]

theorem validateData_none_iff (d : PokemonData) :
    PokemonService.validateData d = none ↔ PokemonService.validateDataErrors d = [] := by
  unfold PokemonService.validateData
  cases h : PokemonService.validateDataErrors d <;> simp [h]

theorem validateData_some_iff (d : PokemonData) (errs : List String) :
    PokemonService.validateData d = some errs ↔
      PokemonService.validateDataErrors d = errs ∧ errs ≠ [] := by
  unfold PokemonService.validateData
  cases h : PokemonService.validateDataErrors d with
  | nil => cases errs <;> simp [h]
  | cons a t =>
    simp [h]
    rintro rfl
    exact List.cons_ne_nil a t

/-! ### Claims -/

/-- C1 (counter-evidence): the sort translation for `orderBy=height` and
`orderBy=weight` produces a sort on the `name` column, not the requested
column; the direction handling itself follows `orderDir`. -/
theorem C1_resolveOrderBy_copy_paste :
    PokemonService.resolveOrderBy (orderQuery (some "height") none) =
        some ⟨OrderField.name, SortOrder.asc⟩ ∧
    PokemonService.resolveOrderBy (orderQuery (some "weight") none) =
        some ⟨OrderField.name, SortOrder.asc⟩ ∧
    PokemonService.resolveOrderBy (orderQuery (some "height") (some "desc")) =
        some ⟨OrderField.name, SortOrder.desc⟩ ∧
    PokemonService.resolveOrderBy (orderQuery (some "height") none) ≠
        some ⟨OrderField.height, SortOrder.asc⟩ ∧
    PokemonService.resolveOrderBy (orderQuery (some "weight") none) ≠
        some ⟨OrderField.weight, SortOrder.asc⟩ := by
  refine ⟨rfl, rfl, rfl, ?_, ?_⟩ <;> decide

/-- C2: `validateData` accepts exactly the payloads whose name and image
are present and non-empty and whose height and weight coerce to
non-negative integers; on any other payload it returns the list with
exactly one field-specific message per invalid field. -/
theorem C2_validateData_characterization
    (name image : Option String) (height weight : JSValue) :
    (PokemonService.validateData ⟨jsOfOptStr name, height, weight, jsOfOptStr image⟩ = none ↔
      (¬(name = none ∨ name = some "") ∧
        (∃ k : ℕ, jsToNumber height = JSNumber.num (k : ℚ)) ∧
        (∃ k : ℕ, jsToNumber weight = JSNumber.num (k : ℚ)) ∧
        ¬(image = none ∨ image = some ""))) ∧
    (∀ errs,
      PokemonService.validateData ⟨jsOfOptStr name, height, weight, jsOfOptStr image⟩ =
          some errs →
        errs = specFieldErrors name image height weight ∧ errs ≠ []) := by
  constructor
  · rw [validateData_none_iff, validateDataErrors_eq_spec]
    unfold specFieldErrors
    constructor
    · intro h
      simp only [List.append_eq_nil] at h
      obtain ⟨⟨⟨h1, h2⟩, h3⟩, h4⟩ := h
      refine ⟨?_, ?_, ?_, ?_⟩
      · intro hc; rw [if_pos hc] at h1; exact List.cons_ne_nil _ _ h1
      · rw [← isNonNegIntB_iff]
        rcases Bool.eq_false_or_eq_true (isNonNegIntB (jsToNumber height)) with hx | hx
        · exact hx
        · rw [if_neg (by simp [hx])] at h2
          exact absurd h2 (List.cons_ne_nil _ _)
      · rw [← isNonNegIntB_iff]
        rcases Bool.eq_false_or_eq_true (isNonNegIntB (jsToNumber weight)) with hx | hx
        · exact hx
        · rw [if_neg (by simp [hx])] at h3
          exact absurd h3 (List.cons_ne_nil _ _)
      · intro hc; rw [if_pos hc] at h4; exact List.cons_ne_nil _ _ h4
    · rintro ⟨h1, h2, h3, h4⟩
      rw [← isNonNegIntB_iff] at h2 h3
      rw [if_neg h1, if_pos h2, if_pos h3, if_neg h4]
      rfl
  · intro errs h
    rw [validateData_some_iff] at h
    exact ⟨by rw [← h.1, validateDataErrors_eq_spec], h.2⟩

/-- C2 witness: a concrete valid payload is accepted. -/
theorem C2_witness :
    PokemonService.validateData
      ⟨jsOfOptStr (some "Pikachu"), JSValue.str "4", JSValue.str "60",
        jsOfOptStr (some "pikachu.png")⟩ = none :=
  (C2_validateData_characterization (some "Pikachu") (some "pikachu.png")
      (JSValue.str "4") (JSValue.str "60")).1.mpr
    ⟨by simp,
      ⟨4, by rw [(by norm_num : ((4 : ℕ) : ℚ) = (4 : ℚ))]; decide⟩,
      ⟨60, by rw [(by norm_num : ((60 : ℕ) : ℚ) = (60 : ℚ))]; decide⟩,
      by simp⟩

/-- A positive page size is the only kind `resolvePageSize` returns. -/
theorem resolvePageSize_pos (s : Option String) (n : Int)
    (h : PokemonService.resolvePageSize s = Except.ok n) : 0 < n := by
  unfold PokemonService.resolvePageSize at h
  split_ifs at h <;> simp_all <;> omega

/-- Spec-side normalized page: the parsed page number, or 1 when the
parameter is absent, unparsable or below 1. -/
def normalizedPage (q : PokemonQuery) : Int :=
  match PokemonService.resolveNumber q.page with
  | none => 1
  | some p => if p < 1 then 1 else p

/-- The falsy-or-below-1 fallback in the source equals the spec-side
normalization (a parsed page of 0 is both falsy and below 1). -/
theorem validPage_eq_normalizedPage (q : PokemonQuery) :
    (match PokemonService.resolveNumber q.page with
      | none => (1 : Int)
      | some p => if p = 0 || p < 1 then 1 else p) = normalizedPage q := by
  unfold normalizedPage
  cases PokemonService.resolveNumber q.page with
  | none => rfl
  | some p =>
    by_cases h0 : p = 0
    · subst h0; norm_num
    · by_cases h1 : p < 1 <;> simp [h0, h1]

/-- C5: page size resolution succeeds exactly on an absent parameter or
one of the strings 10/20/50, resolving to that size; any other value is
a client error surfaced by the list endpoint before any query runs. -/
theorem C5_pageSize_enumeration (s : Option String) (db : List Pokemon)
    (q : PokemonQuery) :
    ((∃ n, PokemonService.resolvePageSize s = Except.ok n) ↔
      s = none ∨ s = some "10" ∨ s = some "20" ∨ s = some "50") ∧
    PokemonService.resolvePageSize none = Except.ok 10 ∧
    PokemonService.resolvePageSize (some "10") = Except.ok 10 ∧
    PokemonService.resolvePageSize (some "20") = Except.ok 20 ∧
    PokemonService.resolvePageSize (some "50") = Except.ok 50 ∧
    (∀ msg, PokemonService.resolvePageSize q.pageSize = Except.error msg →
      AppController.getPokemons db q = Except.error (APIError.badRequestMsg msg)) := by
  refine ⟨⟨?_, ?_⟩, by simp [PokemonService.resolvePageSize],
    by simp [PokemonService.resolvePageSize], by simp [PokemonService.resolvePageSize],
    by simp [PokemonService.resolvePageSize], ?_⟩
  · rintro ⟨n, hn⟩
    unfold PokemonService.resolvePageSize at hn
    split_ifs at hn with h1 h2 h3
    · rcases h1 with h | h
      · exact Or.inl h
      · exact Or.inr (Or.inl h)
    · exact Or.inr (Or.inr (Or.inl h2))
    · exact Or.inr (Or.inr (Or.inr h3))
  · rintro (h | h | h | h) <;> subst h
    · exact ⟨10, by simp [PokemonService.resolvePageSize]⟩
    · exact ⟨10, by simp [PokemonService.resolvePageSize]⟩
    · exact ⟨20, by simp [PokemonService.resolvePageSize]⟩
    · exact ⟨50, by simp [PokemonService.resolvePageSize]⟩
  · intro msg hmsg
    simp [AppController.getPokemons, PokemonService.constructParams,
      PokemonService.resolvePage, hmsg, Except.map]

/-- C5 witness: page size 7 is rejected by the endpoint. -/
theorem C5_witness :
    AppController.getPokemons [] (pageQuery none (some "7")) =
      Except.error (APIError.badRequestMsg "Invalid page size. Valid sizes: 10, 20, 50") :=
  (C5_pageSize_enumeration (some "7") [] (pageQuery none (some "7"))).2.2.2.2.2 _
    (by simp [PokemonService.resolvePageSize, pageQuery])

/-- C4: with a valid page size, the pagination translation yields
`skip = pageSize * (page - 1)` and `take = pageSize` for the normalized
page, and the page echoed by the list operation (`skip / take + 1`)
equals that normalized page. -/
theorem C4_pagination (q : PokemonQuery) (db : List Pokemon) (ps : Int)
    (h : PokemonService.resolvePageSize q.pageSize = Except.ok ps) :
    PokemonService.resolvePage q = Except.ok (ps * (normalizedPage q - 1), ps) ∧
    (PokemonService.getPokemons db
        ⟨PokemonService.resolveWhere q, PokemonService.resolveOrderBy q,
          ps * (normalizedPage q - 1), ps⟩).2 = (normalizedPage q : ℚ) := by
  have hps : 0 < ps := resolvePageSize_pos _ _ h
  constructor
  · unfold PokemonService.resolvePage
    rw [h]
    simp only [Except.map]
    rw [show (match PokemonService.resolveNumber q.page with
      | none => (1 : Int)
      | some p => if p = 0 || p < 1 then 1 else p) = normalizedPage q from
      validPage_eq_normalizedPage q]
  · unfold PokemonService.getPokemons
    simp only [Rat.mkRat_one]
    have hq : (ps : ℚ) ≠ 0 := Int.cast_ne_zero.mpr hps.ne'
    push_cast
    field_simp

/-- C4 witness: the empty query paginates to skip 0, take 10, page 1. -/
theorem C4_witness :
    PokemonService.resolvePage emptyQuery =
        Except.ok (10 * (normalizedPage emptyQuery - 1), 10) ∧
    (PokemonService.getPokemons []
        ⟨PokemonService.resolveWhere emptyQuery, PokemonService.resolveOrderBy emptyQuery,
          10 * (normalizedPage emptyQuery - 1), 10⟩).2 = (normalizedPage emptyQuery : ℚ) :=
  C4_pagination emptyQuery [] 10 (by simp [PokemonService.resolvePageSize, emptyQuery])

/-- C10: a page parameter that does not resolve to an integer (such as
`abc` or `2.5`), and likewise the empty string, falls back to page 1 and
the query succeeds, in contrast with the strict page-size check. -/
theorem C10_lenient_page (q : PokemonQuery) (db : List Pokemon) (ps : Int)
    (hps : PokemonService.resolvePageSize q.pageSize = Except.ok ps) :
    PokemonService.resolveNumber (some "abc") = none ∧
    PokemonService.resolveNumber (some "2.5") = none ∧
    ((PokemonService.resolveNumber q.page = none ∨ q.page = some "") →
      PokemonService.resolvePage q = Except.ok (0, ps) ∧
      ∃ l, AppController.getPokemons db q = Except.ok (l, 1)) := by
  refine ⟨by decide, by decide, ?_⟩
  intro hpage
  have hnorm : normalizedPage q = 1 := by
    unfold normalizedPage
    rcases hpage with hn | he
    · rw [hn]
    · rw [he]
      decide
  have hrp : PokemonService.resolvePage q = Except.ok (0, ps) := by
    have := (C4_pagination q db ps hps).1
    rw [hnorm] at this
    simpa using this
  refine ⟨hrp, ⟨(PokemonService.getPokemons db
      ⟨PokemonService.resolveWhere q, PokemonService.resolveOrderBy q, 0, ps⟩).1, ?_⟩⟩
  unfold AppController.getPokemons PokemonService.constructParams
  rw [hrp]
  simp only [Except.map]
  unfold PokemonService.getPokemons
  norm_num

/-- C10 witness: page `abc` with default page size lands on page 1. -/
theorem C10_witness :
    PokemonService.resolvePage (pageQuery (some "abc") none) = Except.ok (0, 10) ∧
    ∃ l, AppController.getPokemons [] (pageQuery (some "abc") none) = Except.ok (l, 1) :=
  (C10_lenient_page (pageQuery (some "abc") none) [] 10
      (by simp [PokemonService.resolvePageSize, pageQuery])).2.2
    (Or.inl (by decide))

/-- `find?` succeeds exactly when some element satisfies the predicate. -/
theorem findSome_iff {α : Type} (p : α → Bool) (l : List α) :
    (l.find? p).isSome = true ↔ ∃ x ∈ l, p x = true := by
  induction l with
  | nil => simp [List.find?]
  | cons a t ih =>
    cases hpa : p a with
    | true =>
      rw [List.find?_cons_of_pos _ hpa]
      simp only [Option.isSome_some, List.mem_cons]
      constructor
      · intro _; exact ⟨a, Or.inl rfl, hpa⟩
      · intro _; trivial
    | false =>
      rw [List.find?_cons_of_neg _ (by simp [hpa]), ih]
      simp only [List.mem_cons]
      constructor
      · rintro ⟨x, hx1, hx2⟩
        exact ⟨x, Or.inr hx1, hx2⟩
      · rintro ⟨x, hx1 | hx1, hx2⟩
        · subst hx1; rw [hpa] at hx2; exact Bool.noConfusion hx2
        · exact ⟨x, hx1, hx2⟩

/-- The guard of `validateId` coincides with the non-negative-integer
predicate. -/
theorem validateId_cond_eq (n : JSNumber) :
    (n.isInteger && n.ge (JSNumber.num 0)) = isNonNegIntB n := by
  cases n with
  | nan => rfl
  | posInf => rfl
  | negInf => rfl
  | num q =>
    show (decide (q.den = 1) && decide ((0 : ℚ) ≤ q)) = (q.den == 1 && decide (0 ≤ q.num))
    have h1 : (decide (q.den = 1)) = (q.den == 1) := by
      by_cases h : q.den = 1 <;> simp [h]
    have h2 : (decide ((0 : ℚ) ≤ q)) = (decide (0 ≤ q.num)) := by
      by_cases h : (0 : ℚ) ≤ q
      · simp [h, Rat.num_nonneg.mpr h]
      · have hn : ¬(0 ≤ q.num) := fun hh => h (Rat.num_nonneg.mp hh)
        simp [h, hn]
    rw [h1, h2]

/-- C9: a present-but-empty bound string coerces to the number 0 and is
translated to an inclusive bound of 0, not an absent bound. -/
theorem C9_empty_string_bound (q : PokemonQuery) :
    PokemonService.resolveNumber (some "") = some 0 ∧
    (q.heightGte = some "" → (PokemonService.resolveWhere q).height.gte = some 0) ∧
    (q.heightLeq = some "" → (PokemonService.resolveWhere q).height.lte = some 0) ∧
    (q.weightGte = some "" → (PokemonService.resolveWhere q).weight.gte = some 0) ∧
    (q.weightLeq = some "" → (PokemonService.resolveWhere q).weight.lte = some 0) := by
  refine ⟨by decide, ?_, ?_, ?_, ?_⟩ <;>
    (intro h; unfold PokemonService.resolveWhere; dsimp only; rw [h]; decide)

/-- C9 witness: `height[gte]=` (empty) filters at height ≥ 0. -/
theorem C9_witness :
    (PokemonService.resolveWhere (boundsQuery (some "") none none none)).height.gte =
      some 0 :=
  (C9_empty_string_bound (boundsQuery (some "") none none none)).2.1 rfl

/-- C6: each range bound is translated independently; a bound whose
coercion is not an integer becomes an absent (unbounded) side, an
integer coercion becomes an inclusive bound of that value, and the list
query itself never fails because of bound values. -/
theorem C6_lenient_bounds (q : PokemonQuery) (db : List Pokemon) (ps : Int)
    (hps : PokemonService.resolvePageSize q.pageSize = Except.ok ps) :
    (PokemonService.resolveWhere q).height.gte = PokemonService.resolveNumber q.heightGte ∧
    (PokemonService.resolveWhere q).height.lte = PokemonService.resolveNumber q.heightLeq ∧
    (PokemonService.resolveWhere q).weight.gte = PokemonService.resolveNumber q.weightGte ∧
    (PokemonService.resolveWhere q).weight.lte = PokemonService.resolveNumber q.weightLeq ∧
    (∀ s, (jsToNumber (jsOfOptStr s)).isInteger = false →
      PokemonService.resolveNumber s = none) ∧
    (∀ s k, jsToNumber (jsOfOptStr s) = JSNumber.num k → k.den = 1 →
      PokemonService.resolveNumber s = some k.num) ∧
    PokemonService.resolveNumber (some "abc") = none ∧
    PokemonService.resolveNumber (some "5.5") = none ∧
    (∀ (f : NumFilter) (v : Int),
      Prisma.NumFilter.sat f v = true ↔
        ((∀ b ∈ f.gte, b ≤ v) ∧ (∀ b ∈ f.lte, v ≤ b))) ∧
    (∃ r, AppController.getPokemons db q = Except.ok r) := by
  refine ⟨rfl, rfl, rfl, rfl, ?_, ?_, by decide, by decide, ?_, ?_⟩
  · intro s hs
    unfold PokemonService.resolveNumber
    cases hj : jsToNumber (jsOfOptStr s) with
    | num k =>
      rw [hj] at hs
      simp only [JSNumber.isInteger, decide_eq_false_iff_not] at hs
      simp [hs]
    | nan => rfl
    | posInf => rfl
    | negInf => rfl
  · intro s k hjk hden
    unfold PokemonService.resolveNumber
    rw [hjk]
    simp [hden]
  · intro f v
    obtain ⟨g, l⟩ := f
    cases g <;> cases l <;> simp [Prisma.NumFilter.sat]
  · have hpr : ∃ pr, PokemonService.constructParams q = Except.ok pr := by
      unfold PokemonService.constructParams PokemonService.resolvePage
      rw [hps]
      exact ⟨_, rfl⟩
    obtain ⟨pr, hpr⟩ := hpr
    refine ⟨PokemonService.getPokemons db pr, ?_⟩
    unfold AppController.getPokemons
    rw [hpr]

/-- C6 witness: unparsable bounds leave the query unbounded and the
endpoint succeeding. -/
theorem C6_witness :
    ∃ r, AppController.getPokemons []
        (boundsQuery (some "abc") (some "5") none (some "5.5")) = Except.ok r :=
  (C6_lenient_bounds (boundsQuery (some "abc") (some "5") none (some "5.5")) [] 10
      (by simp [PokemonService.resolvePageSize, boundsQuery])).2.2.2.2.2.2.2.2.2

/-- C7: `validateId` accepts exactly the non-negative integers that
reference a stored record; everything else yields the error message
`Invalid id`, on which update and delete fail without touching storage. -/
theorem C7_validateId (db : List Pokemon) (id : JSNumber) (s : String) :
    (PokemonService.validateId db id = none ↔
      ∃ k : ℕ, id = JSNumber.num (k : ℚ) ∧ ∃ p ∈ db, p.id = (k : ℤ)) ∧
    (PokemonService.validateId db id = none ∨
      PokemonService.validateId db id = some "Invalid id") ∧
    (PokemonService.validateId db (jsStringToNumber s) = some "Invalid id" →
      AppController.deletePokemon db s =
          (db, Except.error (APIError.badRequestMsg "Invalid id")) ∧
      (∀ d, PokemonService.validateData d = none →
        AppController.publishPokemon db s d =
          (db, Except.error (APIError.badRequestMsg "Invalid id")))) := by
  refine ⟨?_, ?_, ?_⟩
  · unfold PokemonService.validateId
    rw [validateId_cond_eq]
    rcases Bool.eq_false_or_eq_true (isNonNegIntB id) with hx | hx
    · rw [if_pos hx]
      obtain ⟨k, hk⟩ := (isNonNegIntB_iff id).mp hx
      subst hk
      have hget : PokemonService.getPokemon db (JSNumber.num (k : ℚ)) =
          db.find? (fun p => p.id == (k : ℤ)) := by
        unfold PokemonService.getPokemon Prisma.findUnique
        simp
      rw [hget]
      constructor
      · intro h
        by_cases hf : (db.find? (fun p => p.id == (k : ℤ))).isSome = true
        · obtain ⟨x, hx1, hx2⟩ := (findSome_iff _ _).mp hf
          exact ⟨k, rfl, x, hx1, by simpa using hx2⟩
        · rw [if_neg hf] at h
          exact Option.noConfusion h
      · rintro ⟨k2, hk2, x, hx1, hx2⟩
        have hkk : (k2 : ℚ) = (k : ℚ) := by
          injection hk2 with h'
          exact h'.symm
        have hk21 : (k2 : ℤ) = (k : ℤ) := by exact_mod_cast hkk
        rw [if_pos ((findSome_iff _ _).mpr ⟨x, hx1, by simp [hx2, hk21]⟩)]
    · rw [if_neg (by simp [hx])]
      constructor
      · intro h
        exact Option.noConfusion h
      · rintro ⟨k, hk, -⟩
        rw [hk] at hx
        simp [(isNonNegIntB_iff (JSNumber.num (k : ℚ))).mpr ⟨k, rfl⟩] at hx
  · unfold PokemonService.validateId
    split_ifs <;> simp
  · intro hv
    constructor
    · unfold AppController.deletePokemon
      rw [hv]
    · intro d hd
      unfold AppController.publishPokemon
      rw [hd, hv]

/-- Concrete stored record used by witnesses. -/
def witnessDb : List Pokemon := [⟨1, "Bulbasaur", 7, 69, "bulbasaur.png"⟩]

/-- C7 witness: id 1 over a store containing record 1 validates. -/
theorem C7_witness :
    PokemonService.validateId witnessDb (JSNumber.num ((1 : ℕ) : ℚ)) = none :=
  (C7_validateId witnessDb (JSNumber.num ((1 : ℕ) : ℚ)) "x").1.mpr
    ⟨1, rfl, ⟨1, "Bulbasaur", 7, 69, "bulbasaur.png"⟩, by simp [witnessDb], by norm_num⟩

/-- C3: a create, update or delete whose payload or id fails validation
returns a client error and leaves the stored records untouched. -/
theorem C3_validation_before_mutation (db : List Pokemon) (d : PokemonData)
    (idStr : String) :
    (∀ errs, PokemonService.validateData d = some errs →
      AppController.createPokemon db d =
          (db, Except.error (APIError.badRequest errs)) ∧
      AppController.publishPokemon db idStr d =
          (db, Except.error (APIError.badRequest errs))) ∧
    (∀ e, PokemonService.validateId db (jsStringToNumber idStr) = some e →
      AppController.deletePokemon db idStr =
          (db, Except.error (APIError.badRequestMsg e)) ∧
      (PokemonService.validateData d = none →
        AppController.publishPokemon db idStr d =
          (db, Except.error (APIError.badRequestMsg e)))) := by
  constructor
  · intro errs h
    constructor
    · unfold AppController.createPokemon
      rw [h]
    · unfold AppController.publishPokemon
      rw [h]
  · intro e he
    constructor
    · unfold AppController.deletePokemon
      rw [he]
    · intro hd
      unfold AppController.publishPokemon
      rw [hd, he]

/-- The all-absent payload used by witnesses for invalid bodies. -/
def badPayload : PokemonData := ⟨JSValue.undef, JSValue.undef, JSValue.undef, JSValue.undef⟩

/-- C3 witness: creating from an empty body fails with all four field
messages and an unchanged store. -/
theorem C3_witness :
    AppController.createPokemon [] badPayload =
      ([], Except.error (APIError.badRequest
        ["Invalid name", "Invalid height", "Invalid weight", "Invalid image url"])) :=
  ((C3_validation_before_mutation [] badPayload "abc").1
    ["Invalid name", "Invalid height", "Invalid weight", "Invalid image url"]
    (by decide)).1

/-- C8: on PUT, body validation precedes the id check: an invalid body
is reported as the payload error list whatever the path id is, and the
response does not depend on the stored records or on the id. -/
theorem C8_body_validation_first (db db2 : List Pokemon) (idStr idStr2 : String)
    (d : PokemonData) (errs : List String)
    (h : PokemonService.validateData d = some errs) :
    AppController.publishPokemon db idStr d =
      (db, Except.error (APIError.badRequest errs)) ∧
    (AppController.publishPokemon db idStr d).2 =
      (AppController.publishPokemon db2 idStr2 d).2 := by
  have e1 : AppController.publishPokemon db idStr d =
      (db, Except.error (APIError.badRequest errs)) := by
    unfold AppController.publishPokemon
    rw [h]
  have e2 : AppController.publishPokemon db2 idStr2 d =
      (db2, Except.error (APIError.badRequest errs)) := by
    unfold AppController.publishPokemon
    rw [h]
  exact ⟨e1, by rw [e1, e2]⟩

/-- C8 witness: an invalid body on PUT to an existing id still reports
the payload errors. -/
theorem C8_witness :
    AppController.publishPokemon witnessDb "1" badPayload =
      (witnessDb, Except.error (APIError.badRequest
        ["Invalid name", "Invalid height", "Invalid weight", "Invalid image url"])) :=
  (C8_body_validation_first witnessDb [] "1" "2" badPayload
    ["Invalid name", "Invalid height", "Invalid weight", "Invalid image url"]
    (by decide)).1
